import Mathlib

/-!
Verification of the backend HTTP service in `backend/server.js`.

The service is an Express application that
* applies `cors()` (default configuration: it answers every OPTIONS request
  itself with 204 — the preflight short-circuit, ending the request before
  the body parsers and the router — and adds the header
  `Access-Control-Allow-Origin: *` to every response),
* applies `bodyParser.json()` and `bodyParser.urlencoded({ extended: true })`
  (each parses the request body when the request carries a body with the
  matching content type, and on a parse failure the library's default error
  path answers with a 400 response before any route handler runs),
* registers `GET /` answering the text `Welcome to the Backend API!`,
* registers `GET /api/data` answering the JSON document
  `{ message: ..., timestamp: new Date() }` via `res.json`, and
* listens on `process.env.PORT || 3000`.

Express's default router serves a route registered with `app.get` for both
GET and HEAD (the HEAD fallback, with the response body suppressed), and
matches paths case-insensitively with one optional trailing slash
(`caseSensitive: false`, `strict: false`).

Requests and responses are embedded as plain records; the wall clock is an
explicit parameter `now` (milliseconds since the Unix epoch), standing for
the value `new Date()` reads at handling time.  The concrete text of the body
parsers lives in the `body-parser` dependency, not in this repository, so the
pipeline is parameterised by the success predicates `jsOk` and `formOk` of
the two parsers; every theorem below holds for all choices of these
predicates.
-/

namespace BackendServer

/-- An HTTP request as the service observes it: method, path, query
parameters, headers (lowercase names) and the raw body text. -/
structure Request where
  method : String
  path : String
  query : List (String × String)
  headers : List (String × String)
  body : String
deriving Repr, DecidableEq

/-- An HTTP response: status code, headers and body text. -/
structure Response where
  status : Nat
  headers : List (String × String)
  body : String
deriving Repr, DecidableEq

/-- Result of running the middleware pipeline on one request: the response
sent, together with whether a registered route handler ran (`false` when a
body-parser failure or the default not-found path produced the response). -/
structure HandleResult where
  response : Response
  handlerRan : Bool
deriving Repr, DecidableEq

/-! ### JSON rendering (`res.json`)

`res.json(sampleData)` serialises the payload with `JSON.stringify`.  The
only payload in the program is an object whose fields are a string literal
and a `Date`; `JSON.stringify` serialises a `Date` through
`Date.prototype.toJSON`, i.e. `toISOString`, so the payload reaching the
wire is an object with string values.  We model such objects as association
lists from field name to string value. -/

/-- Escape a character for a JSON string literal (the strings the program
emits contain no control characters, so quote and backslash suffice). -/
def jsonEscapeChar (c : Char) : List Char :=
  if c = '"' ∨ c = '\\' then ['\\', c] else [c]

/-- Escape a string for inclusion in a JSON string literal. -/
def jsonEscape (s : String) : String :=
  String.mk (s.data.flatMap jsonEscapeChar)

/-- Render a JSON string literal. -/
def jsonStr (s : String) : String :=
  "\"" ++ jsonEscape s ++ "\""

/-- Render one `"key":"value"` member. -/
def jsonMember (p : String × String) : String :=
  jsonStr p.1 ++ ":" ++ jsonStr p.2

/-- Render a JSON object with string values, as `JSON.stringify` does. -/
def renderObj (fields : List (String × String)) : String :=
  "\x7b" ++ String.intercalate "," (fields.map jsonMember) ++ "\x7d"

/-! ### `Date.prototype.toISOString`

`new Date()` holds the milliseconds since the Unix epoch; `toISOString`
renders it as `YYYY-MM-DDTHH:mm:ss.sssZ` (UTC, millisecond precision) for
years 0..9999.  The civil-calendar conversion below is the standard
days-to-date algorithm for the proleptic Gregorian calendar. -/

/-- The decimal digit character for `n % 10`. -/
def digitChar (n : Nat) : Char :=
  Char.ofNat (48 + n % 10)

/-- Two zero-padded decimal digits of `n` (for `n < 100`). -/
def pad2 (n : Nat) : List Char :=
  [digitChar (n / 10), digitChar n]

/-- Three zero-padded decimal digits of `n` (for `n < 1000`). -/
def pad3 (n : Nat) : List Char :=
  [digitChar (n / 100), digitChar (n / 10), digitChar n]

/-- Four zero-padded decimal digits of `n` (for `n < 10000`). -/
def pad4 (n : Nat) : List Char :=
  [digitChar (n / 1000), digitChar (n / 100), digitChar (n / 10), digitChar n]

/-- A Gregorian leap year (ECMA-262 `DaysInYear`). -/
def isLeap (y : Nat) : Bool :=
  (y % 4 = 0 && y % 100 ≠ 0) || y % 400 = 0

/-- Number of days in year `y`. -/
def daysInYear (y : Nat) : Nat :=
  if isLeap y then 366 else 365

/-- Number of days in month `m` (1..12) of a year with leap flag `leap`. -/
def monthLen (leap : Bool) (m : Nat) : Nat :=
  match m with
  | 2 => if leap then 29 else 28
  | 4 | 6 | 9 | 11 => 30
  | _ => 31

/-- Total days of the `k` consecutive years starting at year `y`. -/
def spanYears (y : Nat) : Nat → Nat
  | 0 => 0
  | k + 1 => daysInYear y + spanYears (y + 1) k

/-- Total days of the `k` consecutive months starting at month `m`. -/
def spanMonths (leap : Bool) (m : Nat) : Nat → Nat
  | 0 => 0
  | k + 1 => monthLen leap m + spanMonths leap (m + 1) k

/-- Starting at year `y` with `d` remaining days, advance whole years while
they fit (ECMA-262 `YearFromTime`: the largest year whose first day is not
after the instant).  `fuel` bounds the search. -/
def yearSearch : Nat → Nat → Nat → Nat × Nat
  | 0, y, d => (y, d)
  | fuel + 1, y, d =>
    if daysInYear y ≤ d then yearSearch fuel (y + 1) (d - daysInYear y)
    else (y, d)

/-- Starting at month `m` with `d` remaining days, advance whole months
while they fit (ECMA-262 `MonthFromTime`). -/
def monthSearch (leap : Bool) : Nat → Nat → Nat → Nat × Nat
  | 0, m, d => (m, d)
  | fuel + 1, m, d =>
    if monthLen leap m ≤ d then monthSearch leap fuel (m + 1) (d - monthLen leap m)
    else (m, d)

/-- Convert a count of days since 1970-01-01 to the Gregorian civil date
`(year, month, day)`. -/
def civilFromDays (z : Nat) : Nat × Nat × Nat :=
  let yd := yearSearch (z / 365 + 1) 1970 z
  let md := monthSearch (isLeap yd.1) 11 1 yd.2
  (yd.1, md.1, md.2 + 1)

/-- Convert a Gregorian civil date (year ≥ 1970) to the count of days since
1970-01-01. -/
def daysFromCivil (y m d : Nat) : Nat :=
  spanYears 1970 (y - 1970) + spanMonths (isLeap y) 1 (m - 1) + (d - 1)

/-- The character list of `toISOString` of a time `t` in milliseconds since
the Unix epoch. -/
def isoChars (t : Nat) : List Char :=
  let ymd := civilFromDays (t / 86400000)
  pad4 ymd.1 ++ ['-'] ++ pad2 ymd.2.1 ++ ['-'] ++ pad2 ymd.2.2 ++ ['T'] ++
    pad2 (t / 3600000 % 24) ++ [':'] ++ pad2 (t / 60000 % 60) ++ [':'] ++
    pad2 (t / 1000 % 60) ++ ['.'] ++ pad3 (t % 1000) ++ ['Z']

/-- `Date.prototype.toISOString` for times whose year is below 10000 (for
larger years JavaScript switches to the expanded `±YYYYYY` form, far beyond
any wall-clock reading the program makes). -/
def toISOString (t : Nat) : String :=
  String.mk (isoChars t)

/-- The numeric value of a decimal digit character. -/
def charDigit (c : Char) : Nat :=
  c.toNat - 48

/-- Parse a `YYYY-MM-DDTHH:mm:ss.sssZ` string back to milliseconds since
the Unix epoch, `none` on any shape violation. -/
def isoToMillis (s : String) : Option Nat :=
  match s.data with
  | [y1, y2, y3, y4, u1, o1, o2, u2, d1, d2, tc,
     h1, h2, c1, i1, i2, c2, s1, s2, dt, l1, l2, l3, zc] =>
    if u1 = '-' && u2 = '-' && tc = 'T' && c1 = ':' && c2 = ':' &&
        dt = '.' && zc = 'Z' &&
        [y1, y2, y3, y4, o1, o2, d1, d2, h1, h2,
          i1, i2, s1, s2, l1, l2, l3].all Char.isDigit then
      let y := 1000 * charDigit y1 + 100 * charDigit y2 +
        10 * charDigit y3 + charDigit y4
      let mo := 10 * charDigit o1 + charDigit o2
      let dy := 10 * charDigit d1 + charDigit d2
      some (daysFromCivil y mo dy * 86400000 +
        (10 * charDigit h1 + charDigit h2) * 3600000 +
        (10 * charDigit i1 + charDigit i2) * 60000 +
        (10 * charDigit s1 + charDigit s2) * 1000 +
        (100 * charDigit l1 + 10 * charDigit l2 + charDigit l3))
    else none
  | _ => none

/-! ### The two route handlers and the default not-found response -/

/-- `app.get('/')`: `res.send('Welcome to the Backend API!')` — status 200,
Express serves a string body with a text content type. -/
def rootHandler : Response :=
  { status := 200
    headers := [("Content-Type", "text/html; charset=utf-8")]
    body := "Welcome to the Backend API!" }

/-- The payload built in the `/api/data` handler: `sampleData` with its
`message` literal and `timestamp: new Date()` (already in wire form, the
`Date` serialised by `toISOString`). -/
def sampleData (now : Nat) : List (String × String) :=
  [("message", "This is some sample data from the backend!"),
   ("timestamp", toISOString now)]

/-- `app.get('/api/data')`: `res.json(sampleData)` — status 200, JSON
content type, body `JSON.stringify(sampleData)`. -/
def apiDataHandler (now : Nat) : Response :=
  { status := 200
    headers := [("Content-Type", "application/json; charset=utf-8")]
    body := renderObj (sampleData now) }

/-- Express's default not-found response for an unmatched request: status
404 with the framework's standard `Cannot <METHOD> <path>` text. -/
def defaultNotFound (req : Request) : Response :=
  { status := 404
    headers := [("Content-Type", "text/html; charset=utf-8")]
    body := "Cannot " ++ req.method ++ " " ++ req.path }

/-- Lowercase an ASCII letter; Express's default routing compares paths
case-insensitively (`caseSensitive: false`). -/
def charLower (c : Char) : Char :=
  if 65 ≤ c.toNat ∧ c.toNat ≤ 90 then Char.ofNat (c.toNat + 32) else c

/-- Lowercase every ASCII letter of a string. -/
def lowerAscii (s : String) : String :=
  String.mk (s.data.map charLower)

/-- Drop a single trailing slash, as Express's default non-strict routing
(`strict: false`) tolerates one optional trailing slash; the root path `/`
itself is kept. -/
def stripTrailingSlash (s : String) : String :=
  if s.data.getLast? = some '/' ∧ 1 < s.data.length then
    String.mk s.data.dropLast
  else s

/-- The canonical form Express's default matcher compares against a route
literal: lowercased, with one optional trailing slash removed. -/
def normalizePath (p : String) : String :=
  stripTrailingSlash (lowerAscii p)

/-- Whether a request path matches a registered route path under Express's
default matching: case-insensitive with an optional single trailing
slash. -/
def pathMatches (route p : String) : Bool :=
  normalizePath p = route

/-- The route table dispatch: a route registered with `app.get` serves both
GET and HEAD requests (Express falls back to the GET handler for HEAD and
suppresses the response body), and paths are matched case-insensitively
with an optional trailing slash; anything else falls through to the
default not-found response (whose body is likewise suppressed for HEAD). -/
def routeDispatch (now : Nat) (req : Request) : HandleResult :=
  let result :=
    if (req.method = "GET" ∨ req.method = "HEAD") ∧ pathMatches "/" req.path then
      HandleResult.mk rootHandler true
    else if (req.method = "GET" ∨ req.method = "HEAD") ∧
        pathMatches "/api/data" req.path then
      HandleResult.mk (apiDataHandler now) true
    else
      HandleResult.mk (defaultNotFound req) false
  if req.method = "HEAD" then
    HandleResult.mk { result.response with body := "" } result.handlerRan
  else result

/-! ### Body-parsing middleware -/

/-- Look up a header by (lowercase) name. -/
def headerOf (req : Request) (name : String) : Option String :=
  req.headers.lookup name

/-- Whether the request carries a body at all; the body parsers are no-ops
on bodyless requests. -/
def hasBody (req : Request) : Bool :=
  req.body ≠ ""

/-- `bodyParser.json()` rejects the request: it carries a JSON body that
the JSON parser `jsOk` does not accept. -/
def jsonParseFails (jsOk : String → Bool) (req : Request) : Bool :=
  hasBody req &&
    (headerOf req "content-type" = some "application/json" : Bool) &&
    !(jsOk req.body)

/-- `bodyParser.urlencoded({ extended: true })` rejects the request: it
carries a form body that the form parser `formOk` does not accept. -/
def formParseFails (formOk : String → Bool) (req : Request) : Bool :=
  hasBody req &&
    (headerOf req "content-type" =
      some "application/x-www-form-urlencoded" : Bool) &&
    !(formOk req.body)

/-- The 400 response of the library's default failure path when a body
parser rejects the request (Express's default error handler). -/
def badRequest : Response :=
  { status := 400
    headers := [("Content-Type", "text/html; charset=utf-8")]
    body := "Bad Request" }

/-- The `cors()` default preflight response: every OPTIONS request is
answered 204 with the permissive CORS headers and an empty body
(`preflightContinue: false`, `optionsSuccessStatus: 204`), ending the
request before the body parsers and the router run. -/
def corsPreflight : Response :=
  { status := 204
    headers := [("Access-Control-Allow-Origin", "*"),
                ("Access-Control-Allow-Methods", "GET,HEAD,PUT,PATCH,POST,DELETE"),
                ("Content-Length", "0")]
    body := "" }

/-- The full middleware pipeline of `server.js` on one request, handled at
wall-clock time `now`: `cors()` runs first and answers every OPTIONS
request itself with 204, ending it before body parsing and routing; on any
other method it stamps its header on the eventual response; the two body
parsers run next and answer 400 on a parse failure; otherwise the route
table answers. -/
def handle (jsOk formOk : String → Bool) (now : Nat) (req : Request) :
    HandleResult :=
  if req.method = "OPTIONS" then
    HandleResult.mk corsPreflight false
  else
    let inner :=
      if jsonParseFails jsOk req then HandleResult.mk badRequest false
      else if formParseFails formOk req then HandleResult.mk badRequest false
      else routeDispatch now req
    HandleResult.mk
      { inner.response with
          headers := ("Access-Control-Allow-Origin", "*") :: inner.response.headers }
      inner.handlerRan

/-! ### Server startup and configuration -/

/-- The module-level state of the running process: the one configuration
value `server.js` computes at startup.  No request handler writes to it. -/
structure ServerState where
  port : String
deriving Repr, DecidableEq

/-- `process.env.PORT || 3000`: the environment value when set and
non-empty (the empty string is falsy in JavaScript), otherwise 3000. -/
def portOf (env : List (String × String)) : String :=
  match env.lookup "PORT" with
  | some s => if s = "" then "3000" else s
  | none => "3000"

/-- `app.listen(PORT, ...)`: the state of the started server. -/
def startServer (env : List (String × String)) : ServerState :=
  { port := portOf env }

/-- The started server accepts connections on port `p` exactly when `p` is
the single port passed to `app.listen`. -/
def listensOn (env : List (String × String)) (p : String) : Prop :=
  p = (startServer env).port

instance (env : List (String × String)) (p : String) :
    Decidable (listensOn env p) := by
  unfold listensOn; infer_instance

/-- One request/response cycle against the module-level state: the handlers
read no field of it and write none, so the cycle returns it unchanged. -/
def handleCycle (jsOk formOk : String → Bool) (s : ServerState) (now : Nat)
    (req : Request) : HandleResult × ServerState :=
  (handle jsOk formOk now req, s)

/-- Handle a whole sequence of timestamped requests in order, threading the
module-level state through every cycle. -/
def handleSeq (jsOk formOk : String → Bool) (s : ServerState) :
    List (Nat × Request) → List HandleResult × ServerState
  | [] => ([], s)
  | r :: rs =>
    let step := handleCycle jsOk formOk s r.1 r.2
    let rest := handleSeq jsOk formOk step.2 rs
    (step.1 :: rest.1, rest.2)

/-! ## Calendar lemmas -/

theorem daysInYear_ge (y : Nat) : 365 ≤ daysInYear y := by
  unfold daysInYear; split <;> omega

theorem monthLen_le (leap : Bool) (m : Nat) : monthLen leap m ≤ 31 := by
  unfold monthLen; split <;> (try split) <;> omega

theorem monthLen_pos (leap : Bool) (m : Nat) : 1 ≤ monthLen leap m := by
  unfold monthLen; split <;> (try split) <;> omega

theorem spanYears_mono : ∀ (b y a : Nat), a ≤ b → spanYears y a ≤ spanYears y b := by
  intro b
  induction b with
  | zero =>
    intro y a h
    simp only [Nat.le_zero] at h
    simp [h]
  | succ n ih =>
    intro y a h
    cases a with
    | zero => simp [spanYears]
    | succ a =>
      simp only [spanYears]
      exact Nat.add_le_add_left (ih (y + 1) a (Nat.succ_le_succ_iff.mp h)) _

theorem yearSearch_spec (fuel : Nat) : ∀ y d, d < 365 * fuel + 365 →
    ∃ k, (yearSearch fuel y d).1 = y + k ∧
      spanYears y k + (yearSearch fuel y d).2 = d ∧
      (yearSearch fuel y d).2 < daysInYear (y + k) := by
  induction fuel with
  | zero =>
    intro y d h
    refine ⟨0, by simp [yearSearch], by simp [yearSearch, spanYears], ?_⟩
    have := daysInYear_ge y
    simp only [yearSearch, Nat.add_zero]
    omega
  | succ n ih =>
    intro y d h
    by_cases hc : daysInYear y ≤ d
    · have h' : d - daysInYear y < 365 * n + 365 := by
        have := daysInYear_ge y; omega
      obtain ⟨k, h1, h2, h3⟩ := ih (y + 1) (d - daysInYear y) h'
      refine ⟨k + 1, ?_, ?_, ?_⟩
      · simp only [yearSearch, if_pos hc, h1]; omega
      · simp only [yearSearch, if_pos hc, spanYears]
        omega
      · have : y + (k + 1) = y + 1 + k := by omega
        rw [this]
        simpa only [yearSearch, if_pos hc] using h3
    · exact ⟨0, by simp [yearSearch, hc], by simp [yearSearch, hc, spanYears],
        by simp [yearSearch, hc]; omega⟩

theorem monthSearch_spec (leap : Bool) (fuel : Nat) : ∀ m d,
    d < spanMonths leap m fuel + monthLen leap (m + fuel) →
    ∃ k, k ≤ fuel ∧ (monthSearch leap fuel m d).1 = m + k ∧
      spanMonths leap m k + (monthSearch leap fuel m d).2 = d ∧
      (monthSearch leap fuel m d).2 < monthLen leap (m + k) := by
  induction fuel with
  | zero =>
    intro m d h
    simp only [spanMonths, Nat.zero_add, Nat.add_zero] at h
    exact ⟨0, le_rfl, by simp [monthSearch], by simp [monthSearch, spanMonths],
      by simpa [monthSearch] using h⟩
  | succ n ih =>
    intro m d h
    by_cases hc : monthLen leap m ≤ d
    · have h' : d - monthLen leap m <
          spanMonths leap (m + 1) n + monthLen leap (m + 1 + n) := by
        simp only [spanMonths] at h
        have : m + 1 + n = m + (n + 1) := by omega
        rw [this]
        omega
      obtain ⟨k, hk, h1, h2, h3⟩ := ih (m + 1) (d - monthLen leap m) h'
      refine ⟨k + 1, by omega, ?_, ?_, ?_⟩
      · simp only [monthSearch, if_pos hc, h1]; omega
      · simp only [monthSearch, if_pos hc, spanMonths]
        omega
      · have : m + (k + 1) = m + 1 + k := by omega
        rw [this]
        simpa only [monthSearch, if_pos hc] using h3
    · exact ⟨0, by omega, by simp [monthSearch, hc], by simp [monthSearch, hc, spanMonths],
        by simp [monthSearch, hc]; omega⟩

theorem spanMonths_total (leap : Bool) :
    spanMonths leap 1 11 + monthLen leap (1 + 11) = (if leap then 366 else 365) := by
  cases leap <;> rfl

theorem spanYears_add (a : Nat) : ∀ (y b : Nat),
    spanYears y (a + b) = spanYears y a + spanYears (y + a) b := by
  induction a with
  | zero => intro y b; simp [spanYears]
  | succ n ih =>
    intro y b
    have h1 : n + 1 + b = (n + b) + 1 := by omega
    rw [h1]
    simp only [spanYears]
    rw [ih (y + 1) b]
    have h2 : y + 1 + n = y + (n + 1) := by omega
    rw [h2]
    omega

set_option maxRecDepth 40000 in
theorem spanYears_chunk400 : ∀ i, i < 20 → spanYears (2000 + 400 * i) 400 = 146097 := by
  decide

set_option maxRecDepth 4000 in
theorem spanYears_1970_30 : spanYears 1970 30 = 10957 := by decide

theorem spanYears_2000_mul400 : ∀ n, n ≤ 20 → spanYears 2000 (400 * n) = 146097 * n := by
  intro n
  induction n with
  | zero => intro _; rfl
  | succ k ih =>
    intro h
    have h1 : 400 * (k + 1) = 400 * k + 400 := by omega
    rw [h1, spanYears_add (400 * k) 2000 400, ih (by omega),
      spanYears_chunk400 k (by omega)]
    omega

theorem spanYears_1970_8030 : spanYears 1970 8030 = 2932897 := by
  have h1 : (8030 : Nat) = 30 + 8000 := by omega
  rw [h1, spanYears_add 30 1970 8000]
  have h2 : spanYears (1970 + 30) 8000 = 146097 * 20 := by
    have := spanYears_2000_mul400 20 (by omega)
    norm_num at this ⊢
    exact this
  rw [spanYears_1970_30, h2]

theorem civilFromDays_spec (z : Nat) :
    daysFromCivil (civilFromDays z).1 (civilFromDays z).2.1 (civilFromDays z).2.2 = z ∧
    1970 ≤ (civilFromDays z).1 ∧
    1 ≤ (civilFromDays z).2.1 ∧ (civilFromDays z).2.1 ≤ 12 ∧
    1 ≤ (civilFromDays z).2.2 ∧ (civilFromDays z).2.2 ≤ 31 := by
  obtain ⟨k, h1, h2, h3⟩ := yearSearch_spec (z / 365 + 1) 1970 z (by omega)
  have hm : (yearSearch (z / 365 + 1) 1970 z).2 <
      spanMonths (isLeap (yearSearch (z / 365 + 1) 1970 z).1) 1 11 +
        monthLen (isLeap (yearSearch (z / 365 + 1) 1970 z).1) (1 + 11) := by
    rw [spanMonths_total, h1]
    unfold daysInYear at h3
    exact h3
  obtain ⟨j, hj, g1, g2, g3⟩ := monthSearch_spec
    (isLeap (yearSearch (z / 365 + 1) 1970 z).1) 11 1
    (yearSearch (z / 365 + 1) 1970 z).2 hm
  have hcz : civilFromDays z =
      ((yearSearch (z / 365 + 1) 1970 z).1,
       (monthSearch (isLeap (yearSearch (z / 365 + 1) 1970 z).1) 11 1
          (yearSearch (z / 365 + 1) 1970 z).2).1,
       (monthSearch (isLeap (yearSearch (z / 365 + 1) 1970 z).1) 11 1
          (yearSearch (z / 365 + 1) 1970 z).2).2 + 1) := rfl
  rw [hcz]
  dsimp only
  rw [h1] at g1 g2 g3 ⊢
  refine ⟨?_, by omega, by omega, by omega, by omega, ?_⟩
  · unfold daysFromCivil
    rw [g1]
    rw [show 1970 + k - 1970 = k by omega, show 1 + j - 1 = j by omega]
    simp only [Nat.add_sub_cancel]
    omega
  · have := monthLen_le (isLeap (1970 + k)) (1 + j)
    omega

theorem civilFromDays_year_le (z : Nat) (hz : z ≤ 2932896) :
    (civilFromDays z).1 ≤ 9999 := by
  obtain ⟨k, h1, h2, h3⟩ := yearSearch_spec (z / 365 + 1) 1970 z (by omega)
  have hcz : (civilFromDays z).1 = (yearSearch (z / 365 + 1) 1970 z).1 := rfl
  rw [hcz, h1]
  by_contra hgt
  have hk : 8030 ≤ k := by omega
  have hmono := spanYears_mono k 1970 8030 hk
  rw [spanYears_1970_8030] at hmono
  omega

/-! ## ISO-8601 rendering lemmas -/

theorem digitChar_isDigit (n : Nat) : (digitChar n).isDigit = true := by
  have h : n % 10 < 10 := by omega
  have key : ∀ k, k < 10 → (Char.ofNat (48 + k)).isDigit = true := by decide
  unfold digitChar
  exact key _ h

theorem charDigit_digitChar (n : Nat) : charDigit (digitChar n) = n % 10 := by
  have h : n % 10 < 10 := by omega
  have key : ∀ k, k < 10 → charDigit (Char.ofNat (48 + k)) = k := by decide
  unfold digitChar
  exact key _ h

theorem isoChars_eq (t : Nat) : isoChars t =
    [digitChar ((civilFromDays (t / 86400000)).1 / 1000),
     digitChar ((civilFromDays (t / 86400000)).1 / 100),
     digitChar ((civilFromDays (t / 86400000)).1 / 10),
     digitChar (civilFromDays (t / 86400000)).1,
     '-',
     digitChar ((civilFromDays (t / 86400000)).2.1 / 10),
     digitChar (civilFromDays (t / 86400000)).2.1,
     '-',
     digitChar ((civilFromDays (t / 86400000)).2.2 / 10),
     digitChar (civilFromDays (t / 86400000)).2.2,
     'T',
     digitChar (t / 3600000 % 24 / 10), digitChar (t / 3600000 % 24),
     ':',
     digitChar (t / 60000 % 60 / 10), digitChar (t / 60000 % 60),
     ':',
     digitChar (t / 1000 % 60 / 10), digitChar (t / 1000 % 60),
     '.',
     digitChar (t % 1000 / 100), digitChar (t % 1000 / 10), digitChar (t % 1000),
     'Z'] := rfl

theorem isoToMillis_mk (y1 y2 y3 y4 o1 o2 d1 d2 e1 e2 i1 i2 s1 s2 l1 l2 l3 : Char) :
    isoToMillis (String.mk [y1, y2, y3, y4, '-', o1, o2, '-', d1, d2, 'T',
      e1, e2, ':', i1, i2, ':', s1, s2, '.', l1, l2, l3, 'Z']) =
    (if [y1, y2, y3, y4, o1, o2, d1, d2, e1, e2,
          i1, i2, s1, s2, l1, l2, l3].all Char.isDigit then
      some (daysFromCivil
          (1000 * charDigit y1 + 100 * charDigit y2 + 10 * charDigit y3 + charDigit y4)
          (10 * charDigit o1 + charDigit o2)
          (10 * charDigit d1 + charDigit d2) * 86400000 +
        (10 * charDigit e1 + charDigit e2) * 3600000 +
        (10 * charDigit i1 + charDigit i2) * 60000 +
        (10 * charDigit s1 + charDigit s2) * 1000 +
        (100 * charDigit l1 + 10 * charDigit l2 + charDigit l3))
    else none) := rfl

/-- Parsing is a left inverse of rendering: for every instant below the
year-10000 boundary, the rendered ISO string parses back to the instant. -/
theorem isoToMillis_toISOString (t : Nat) (ht : t < 253402300800000) :
    isoToMillis (toISOString t) = some t := by
  obtain ⟨hrt, hy1970, hm1, hm12, hd1, hd31⟩ := civilFromDays_spec (t / 86400000)
  have hyle : (civilFromDays (t / 86400000)).1 ≤ 9999 :=
    civilFromDays_year_le _ (by omega)
  have hts : toISOString t = String.mk (isoChars t) := rfl
  rw [hts, isoChars_eq, isoToMillis_mk]
  rw [if_pos (by simp [digitChar_isDigit] :
    ([digitChar ((civilFromDays (t / 86400000)).1 / 1000),
      digitChar ((civilFromDays (t / 86400000)).1 / 100),
      digitChar ((civilFromDays (t / 86400000)).1 / 10),
      digitChar (civilFromDays (t / 86400000)).1,
      digitChar ((civilFromDays (t / 86400000)).2.1 / 10),
      digitChar (civilFromDays (t / 86400000)).2.1,
      digitChar ((civilFromDays (t / 86400000)).2.2 / 10),
      digitChar (civilFromDays (t / 86400000)).2.2,
      digitChar (t / 3600000 % 24 / 10), digitChar (t / 3600000 % 24),
      digitChar (t / 60000 % 60 / 10), digitChar (t / 60000 % 60),
      digitChar (t / 1000 % 60 / 10), digitChar (t / 1000 % 60),
      digitChar (t % 1000 / 100), digitChar (t % 1000 / 10),
      digitChar (t % 1000)].all Char.isDigit) = true)]
  simp only [charDigit_digitChar, Option.some.injEq]
  have hY : 1000 * ((civilFromDays (t / 86400000)).1 / 1000 % 10) +
      100 * ((civilFromDays (t / 86400000)).1 / 100 % 10) +
      10 * ((civilFromDays (t / 86400000)).1 / 10 % 10) +
      (civilFromDays (t / 86400000)).1 % 10 = (civilFromDays (t / 86400000)).1 := by
    omega
  have hM : 10 * ((civilFromDays (t / 86400000)).2.1 / 10 % 10) +
      (civilFromDays (t / 86400000)).2.1 % 10 = (civilFromDays (t / 86400000)).2.1 := by
    omega
  have hD : 10 * ((civilFromDays (t / 86400000)).2.2 / 10 % 10) +
      (civilFromDays (t / 86400000)).2.2 % 10 = (civilFromDays (t / 86400000)).2.2 := by
    omega
  rw [hY, hM, hD, hrt]
  omega

/-! ## The claims -/

/-- C1: for every request with method GET and path `/` (whose body, if any,
passes the body parsers), the service responds with status 200 and the body
`Welcome to the Backend API!`, regardless of query parameters or headers. -/
theorem c1_root_route (jsOk formOk : String → Bool) (now : Nat) (req : Request)
    (hm : req.method = "GET") (hp : req.path = "/")
    (hj : jsonParseFails jsOk req = false) (hf : formParseFails formOk req = false) :
    (handle jsOk formOk now req).response.status = 200 ∧
    (handle jsOk formOk now req).response.body = "Welcome to the Backend API!" := by
  have hr : pathMatches "/" "/" = true := rfl
  unfold handle routeDispatch rootHandler
  simp [hj, hf, hm, hp, hr]

/-- Witness for C1: a concrete GET `/` request with query parameters and an
extra header. -/
theorem c1_root_route_witness :
    (handle (fun _ => true) (fun _ => true) 0
      ⟨"GET", "/", [("q", "1")], [("x-extra", "h")], ""⟩).response.status = 200 ∧
    (handle (fun _ => true) (fun _ => true) 0
      ⟨"GET", "/", [("q", "1")], [("x-extra", "h")], ""⟩).response.body =
      "Welcome to the Backend API!" :=
  c1_root_route _ _ 0 _ rfl rfl rfl rfl

/-- C2: for every request with method GET and path `/api/data` (whose body,
if any, passes the body parsers), the service responds with status 200, a
JSON content type, and the JSON object whose `message` field is the literal
sample string and which carries a `timestamp` field. -/
theorem c2_api_data_route (jsOk formOk : String → Bool) (now : Nat) (req : Request)
    (hm : req.method = "GET") (hp : req.path = "/api/data")
    (hj : jsonParseFails jsOk req = false) (hf : formParseFails formOk req = false) :
    (handle jsOk formOk now req).response.status = 200 ∧
    ("Content-Type", "application/json; charset=utf-8") ∈
      (handle jsOk formOk now req).response.headers ∧
    (handle jsOk formOk now req).response.body = renderObj (sampleData now) ∧
    (sampleData now).lookup "message" =
      some "This is some sample data from the backend!" ∧
    (sampleData now).lookup "timestamp" = some (toISOString now) := by
  have hr : pathMatches "/api/data" "/api/data" = true := rfl
  have hr0 : pathMatches "/" "/api/data" = false := rfl
  refine ⟨?_, ?_, ?_, rfl, rfl⟩ <;> unfold handle routeDispatch apiDataHandler <;>
    simp [hj, hf, hm, hp, hr, hr0]

/-- Witness for C2: a concrete GET `/api/data` request. -/
theorem c2_api_data_route_witness :
    (handle (fun _ => true) (fun _ => true) 0
      ⟨"GET", "/api/data", [], [], ""⟩).response.status = 200 ∧
    ("Content-Type", "application/json; charset=utf-8") ∈
      (handle (fun _ => true) (fun _ => true) 0
        ⟨"GET", "/api/data", [], [], ""⟩).response.headers ∧
    (handle (fun _ => true) (fun _ => true) 0
      ⟨"GET", "/api/data", [], [], ""⟩).response.body = renderObj (sampleData 0) ∧
    (sampleData 0).lookup "message" =
      some "This is some sample data from the backend!" ∧
    (sampleData 0).lookup "timestamp" = some (toISOString 0) :=
  c2_api_data_route _ _ 0 _ rfl rfl rfl rfl

/-- C3: the `timestamp` field of the `/api/data` response is the wall-clock
reading `now` taken when the request is handled: it parses as a valid
date-time, and whenever the handling instant lies between the issue and
receive instants, so does the parsed timestamp. -/
theorem c3_timestamp_is_handling_time (jsOk formOk : String → Bool)
    (now issued received : Nat) (req : Request)
    (hm : req.method = "GET") (hp : req.path = "/api/data")
    (hj : jsonParseFails jsOk req = false) (hf : formParseFails formOk req = false)
    (h1 : issued ≤ now) (h2 : now ≤ received) (hrange : now < 253402300800000) :
    (handle jsOk formOk now req).response.body = renderObj (sampleData now) ∧
    ∃ ts tv, (sampleData now).lookup "timestamp" = some ts ∧
      isoToMillis ts = some tv ∧ issued ≤ tv ∧ tv ≤ received := by
  have hr : pathMatches "/api/data" "/api/data" = true := rfl
  have hr0 : pathMatches "/" "/api/data" = false := rfl
  refine ⟨?_, toISOString now, now, rfl, isoToMillis_toISOString now hrange, h1, h2⟩
  unfold handle routeDispatch apiDataHandler
  simp [hj, hf, hm, hp, hr, hr0]

/-- Witness for C3: a request handled at 2025-10-12T00:00:00.123Z between
two client-side clock readings. -/
theorem c3_timestamp_is_handling_time_witness :
    (handle (fun _ => true) (fun _ => true) 1760227200123
      ⟨"GET", "/api/data", [], [], ""⟩).response.body =
      renderObj (sampleData 1760227200123) ∧
    ∃ ts tv, (sampleData 1760227200123).lookup "timestamp" = some ts ∧
      isoToMillis ts = some tv ∧ 1760227200000 ≤ tv ∧ tv ≤ 1760227201000 :=
  c3_timestamp_is_handling_time _ _ 1760227200123 1760227200000 1760227201000 _
    rfl rfl rfl rfl (by omega) (by omega) (by omega)

/-- C4 (amended): every non-OPTIONS request whose path matches neither `/`
nor `/api/data` under the framework's case-insensitive, trailing-slash-
tolerant matching (and whose body, if any, passes the body parsers)
receives the framework's default not-found response: status 404, the
standard `Cannot METHOD path` body (suppressed for HEAD), and no route
handler runs.  The claim as stated is refuted by `c4_path_counterexample`:
OPTIONS requests are answered 204 by the CORS preflight short-circuit, and
paths such as `/api/data/` that differ from both route literals still match
a route. -/
theorem c4_unknown_path_404 (jsOk formOk : String → Bool) (now : Nat) (req : Request)
    (ho : req.method ≠ "OPTIONS")
    (hp1 : pathMatches "/" req.path = false)
    (hp2 : pathMatches "/api/data" req.path = false)
    (hj : jsonParseFails jsOk req = false) (hf : formParseFails formOk req = false) :
    (handle jsOk formOk now req).response.status = 404 ∧
    (handle jsOk formOk now req).response.body =
      (if req.method = "HEAD" then ""
       else "Cannot " ++ req.method ++ " " ++ req.path) ∧
    (handle jsOk formOk now req).handlerRan = false := by
  unfold handle routeDispatch defaultNotFound
  by_cases hh : req.method = "HEAD" <;> simp [ho, hj, hf, hp1, hp2, hh]

/-- Witness for C4: a concrete GET to an unregistered path. -/
theorem c4_unknown_path_404_witness :
    (handle (fun _ => true) (fun _ => true) 0
      ⟨"GET", "/missing", [], [], ""⟩).response.status = 404 ∧
    (handle (fun _ => true) (fun _ => true) 0
      ⟨"GET", "/missing", [], [], ""⟩).response.body =
      (if ("GET" : String) = "HEAD" then "" else "Cannot GET /missing") ∧
    (handle (fun _ => true) (fun _ => true) 0
      ⟨"GET", "/missing", [], [], ""⟩).handlerRan = false :=
  c4_unknown_path_404 _ _ 0 _ (by decide) rfl rfl rfl rfl

/-- Counterexample to C4 as stated: `/api/data/` is literally neither `/`
nor `/api/data`, yet a GET to it is served 200 by the non-strict matcher;
and an OPTIONS request to an unknown path is answered 204 by the CORS
preflight, not 404. -/
theorem c4_path_counterexample :
    ("/api/data/" ≠ "/" ∧ "/api/data/" ≠ "/api/data") ∧
    (handle (fun _ => true) (fun _ => true) 0
      ⟨"GET", "/api/data/", [], [], ""⟩).response.status = 200 ∧
    (handle (fun _ => true) (fun _ => true) 0
      ⟨"OPTIONS", "/missing", [], [], ""⟩).response.status = 204 :=
  ⟨by decide, rfl, rfl⟩

/-- C5: every response to every request, whatever its route, method or
headers, carries the `cors()` wildcard header `Access-Control-Allow-Origin: *`,
so cross-origin access is never denied for any origin. -/
theorem c5_cors_all_requests (jsOk formOk : String → Bool) (now : Nat) (req : Request) :
    ("Access-Control-Allow-Origin", "*") ∈
      (handle jsOk formOk now req).response.headers := by
  unfold handle
  by_cases h : req.method = "OPTIONS"
  · simp [h, corsPreflight]
  · simp only [if_neg h]
    exact List.mem_cons_self _ _

/-- C6: the listening port is the value of the `PORT` environment variable
when set and non-empty, and 3000 when it is unset or empty; with
`PORT=8080` the server listens on 8080 and not on 3000. -/
theorem c6_port_selection :
    (∀ env s, env.lookup "PORT" = some s → s ≠ "" → (startServer env).port = s) ∧
    (∀ env, env.lookup "PORT" = none → (startServer env).port = "3000") ∧
    (∀ env, env.lookup "PORT" = some "" → (startServer env).port = "3000") ∧
    (startServer [("PORT", "8080")]).port = "8080" ∧
    listensOn [("PORT", "8080")] "8080" ∧ ¬ listensOn [("PORT", "8080")] "3000" := by
  refine ⟨?_, ?_, ?_, rfl, rfl, by decide⟩
  · intro env s hs hne
    unfold startServer portOf
    rw [hs]
    simp [hne]
  · intro env hn
    unfold startServer portOf
    rw [hn]
  · intro env hs
    unfold startServer portOf
    rw [hs]
    rfl

/-- Witness for C6: concrete environments with `PORT` set, absent, and
empty. -/
theorem c6_port_selection_witness :
    (startServer [("PORT", "8080")]).port = "8080" ∧
    (startServer [("HOME", "/root")]).port = "3000" ∧
    (startServer [("PORT", "")]).port = "3000" :=
  ⟨c6_port_selection.1 [("PORT", "8080")] "8080" rfl (by decide),
   c6_port_selection.2.1 [("HOME", "/root")] rfl,
   c6_port_selection.2.2.1 [("PORT", "")] rfl⟩

/-- C7 (amended): whenever a body parser rejects the body of a non-OPTIONS
request, the response is the library's default 400 failure response and no
route handler runs.  The claim as stated (over every request) is refuted by
`c7_options_counterexample`: an OPTIONS request with a malformed body is
answered 204 by the CORS preflight short-circuit before body parsing. -/
theorem c7_malformed_body_400 (jsOk formOk : String → Bool) (now : Nat) (req : Request)
    (ho : req.method ≠ "OPTIONS")
    (h : jsonParseFails jsOk req = true ∨ formParseFails formOk req = true) :
    (handle jsOk formOk now req).response.status = 400 ∧
    (handle jsOk formOk now req).handlerRan = false := by
  unfold handle badRequest
  rcases h with h | h
  · simp [ho, h]
  · by_cases hj : jsonParseFails jsOk req <;> simp [ho, hj, h]

/-- Witness for C7: a POST with a JSON content type whose body the JSON
parser rejects. -/
theorem c7_malformed_body_400_witness :
    (handle (fun _ => false) (fun _ => true) 0
      ⟨"POST", "/", [], [("content-type", "application/json")],
        "not json"⟩).response.status = 400 ∧
    (handle (fun _ => false) (fun _ => true) 0
      ⟨"POST", "/", [], [("content-type", "application/json")],
        "not json"⟩).handlerRan = false :=
  c7_malformed_body_400 _ _ 0 _ (by decide) (Or.inl rfl)

/-- Counterexample to C7 as stated: an OPTIONS request whose JSON body the
parser rejects is nevertheless answered 204 by the CORS preflight, not a
400-class response. -/
theorem c7_options_counterexample :
    jsonParseFails (fun _ => false)
      ⟨"OPTIONS", "/", [], [("content-type", "application/json")],
        "not json"⟩ = true ∧
    (handle (fun _ => false) (fun _ => true) 0
      ⟨"OPTIONS", "/", [], [("content-type", "application/json")],
        "not json"⟩).response.status = 204 :=
  ⟨rfl, rfl⟩

/-- C8: no handler mutates state that outlives one request/response cycle:
processing any sequence of requests leaves the module-level state unchanged
and answers each request exactly as if it were the only one ever handled. -/
theorem c8_no_cross_request_state (jsOk formOk : String → Bool) (s : ServerState)
    (reqs : List (Nat × Request)) :
    (handleSeq jsOk formOk s reqs).2 = s ∧
    (handleSeq jsOk formOk s reqs).1 =
      reqs.map (fun r => handle jsOk formOk r.1 r.2) := by
  induction reqs with
  | nil => simp [handleSeq]
  | cons r rs ih => simp [handleSeq, handleCycle, ih]

/-- C9: the `/api/data` timestamp is serialized as `Date.prototype.toJSON`
does (`toISOString`): a 24-character UTC ISO-8601 string with millisecond
precision ending in `Z` that parses back to the handling instant, and the
payload has exactly the fields `message` and `timestamp`. -/
theorem c9_date_serialization (jsOk formOk : String → Bool) (now : Nat) (req : Request)
    (hm : req.method = "GET") (hp : req.path = "/api/data")
    (hj : jsonParseFails jsOk req = false) (hf : formParseFails formOk req = false)
    (hrange : now < 253402300800000) :
    (handle jsOk formOk now req).response.body = renderObj (sampleData now) ∧
    (sampleData now).map Prod.fst = ["message", "timestamp"] ∧
    (sampleData now).lookup "timestamp" = some (toISOString now) ∧
    isoToMillis (toISOString now) = some now ∧
    (toISOString now).data.length = 24 ∧
    (toISOString now).data.getLast? = some 'Z' := by
  have hr : pathMatches "/api/data" "/api/data" = true := rfl
  have hr0 : pathMatches "/" "/api/data" = false := rfl
  refine ⟨?_, rfl, rfl, isoToMillis_toISOString now hrange, ?_, ?_⟩
  · unfold handle routeDispatch apiDataHandler
    simp [hj, hf, hm, hp, hr, hr0]
  · rw [show (toISOString now).data = isoChars now from rfl, isoChars_eq]
    rfl
  · rw [show (toISOString now).data = isoChars now from rfl, isoChars_eq]
    rfl

/-- Witness for C9: the serialization at the concrete instant
2025-10-12T00:00:00.123Z. -/
theorem c9_date_serialization_witness :
    (handle (fun _ => true) (fun _ => true) 1760227200123
      ⟨"GET", "/api/data", [], [], ""⟩).response.body =
      renderObj (sampleData 1760227200123) ∧
    (sampleData 1760227200123).map Prod.fst = ["message", "timestamp"] ∧
    (sampleData 1760227200123).lookup "timestamp" =
      some (toISOString 1760227200123) ∧
    isoToMillis (toISOString 1760227200123) = some 1760227200123 ∧
    (toISOString 1760227200123).data.length = 24 ∧
    (toISOString 1760227200123).data.getLast? = some 'Z' :=
  c9_date_serialization _ _ 1760227200123 _ rfl rfl rfl rfl (by omega)

/-- C10 (amended): a request to `/` or `/api/data` with any method other
than GET, HEAD and OPTIONS (whose body, if any, passes the body parsers)
receives the framework's default not-found response (status 404) and no
handler runs.  The claim as stated (every non-GET method) is refuted by
`c10_head_counterexample`: HEAD is served by the GET handler (200) and
OPTIONS is answered 204 by the CORS preflight. -/
theorem c10_non_get_method_404 (jsOk formOk : String → Bool) (now : Nat) (req : Request)
    (hm1 : req.method ≠ "GET") (hm2 : req.method ≠ "HEAD")
    (hm3 : req.method ≠ "OPTIONS")
    (hp : req.path = "/" ∨ req.path = "/api/data")
    (hj : jsonParseFails jsOk req = false) (hf : formParseFails formOk req = false) :
    (handle jsOk formOk now req).response.status = 404 ∧
    (handle jsOk formOk now req).handlerRan = false := by
  unfold handle routeDispatch defaultNotFound
  simp [hj, hf, hm1, hm2, hm3]

/-- Witness for C10: a concrete POST to `/`. -/
theorem c10_non_get_method_404_witness :
    (handle (fun _ => true) (fun _ => true) 0
      ⟨"POST", "/", [], [], ""⟩).response.status = 404 ∧
    (handle (fun _ => true) (fun _ => true) 0
      ⟨"POST", "/", [], [], ""⟩).handlerRan = false :=
  c10_non_get_method_404 _ _ 0 _ (by decide) (by decide) (by decide) (Or.inl rfl)
    rfl rfl

/-- Counterexample to C10 as stated: HEAD `/` is served 200 by the GET
handler's HEAD fallback, and OPTIONS `/` is answered 204 by the CORS
preflight — neither method is GET, and neither response is 404. -/
theorem c10_head_counterexample :
    ("HEAD" ≠ "GET" ∧ "OPTIONS" ≠ "GET") ∧
    (handle (fun _ => true) (fun _ => true) 0
      ⟨"HEAD", "/", [], [], ""⟩).response.status = 200 ∧
    (handle (fun _ => true) (fun _ => true) 0
      ⟨"OPTIONS", "/", [], [], ""⟩).response.status = 204 :=
  ⟨by decide, rfl, rfl⟩

end BackendServer
